import Mathlib

/-!
# Verification of the cortx copy-machine control protocol fragment

Shallow embedding of the repository's two source files and of the
spec-described control state machine:

* `src/mero/sns/cm/rebalance/trigger_fop.c` — registration/deregistration of
  the eight SNS-rebalance trigger fop (file-operation-packet) types, embedded
  below as explicit registration lists.
* `src/mero/lib/processor.h` — the processor-topology query interface; its
  implementation is not part of the sources, so its behaviour is modelled
  from the spec and from the header's documented contract.
* The operation state machine / control dispatcher of spec §4.2–§4.4 — no
  implementation exists in the sources (only the message-type registration
  code is shown), so it is modelled from the spec's transition table.
-/

namespace Cortx

/-! ## Message catalog (from `sns/cm/rebalance/trigger_fop.c`) -/

/-- The eight fop-type objects referenced by
`m0_sns_cm_rebalance_trigger_fop_init`/`_fini`. They are declared in
`sns/cm/trigger_fop.h` (not under the sources); here each is a distinct
named constant. -/
inductive FoptId
  | m0_sns_rebalance_trigger_fopt
  | m0_sns_rebalance_trigger_rep_fopt
  | m0_sns_rebalance_quiesce_fopt
  | m0_sns_rebalance_quiesce_rep_fopt
  | m0_sns_rebalance_status_fopt
  | m0_sns_rebalance_status_rep_fopt
  | m0_sns_rebalance_abort_fopt
  | m0_sns_rebalance_abort_rep_fopt
  deriving DecidableEq, Repr

/-- The eight opcode macros passed to `m0_cm_trigger_fop_init`. Their numeric
values live in `sns/cm/trigger_fop.h` (not under the sources); the spec's
catalog assigns one distinct opcode per message type, so they are embedded
as distinct named constants. -/
inductive Opcode
  | M0_SNS_REBALANCE_TRIGGER_OPCODE
  | M0_SNS_REBALANCE_TRIGGER_REP_OPCODE
  | M0_SNS_REBALANCE_QUIESCE_OPCODE
  | M0_SNS_REBALANCE_QUIESCE_REP_OPCODE
  | M0_SNS_REBALANCE_STATUS_OPCODE
  | M0_SNS_REBALANCE_STATUS_REP_OPCODE
  | M0_SNS_REBALANCE_ABORT_OPCODE
  | M0_SNS_REBALANCE_ABORT_REP_OPCODE
  deriving DecidableEq, Repr

/-- The xcode (serialization) schemas used in the registration calls:
`trigger_fop_xc` (request payload), `trigger_rep_fop_xc` (trigger/quiesce
reply payload) and `m0_status_rep_fop_xc` (status reply payload). -/
inductive XcSchema
  | trigger_fop_xc
  | trigger_rep_fop_xc
  | m0_status_rep_fop_xc
  deriving DecidableEq, Repr

/-- RPC item types appearing in the registration calls. `M0_RPC_MUTABO_REQ`
is the request item type carrying the MUTABO ("mutable operation", i.e.
state-mutating request) flag; `M0_RPC_ITEM_TYPE_REQUEST` is the plain
request item type without that flag; `M0_RPC_ITEM_TYPE_REPLY` marks a
reply. -/
inductive RpcItemType
  | M0_RPC_MUTABO_REQ
  | M0_RPC_ITEM_TYPE_REQUEST
  | M0_RPC_ITEM_TYPE_REPLY
  deriving DecidableEq, Repr

/-- An item type is a request item type (with or without the MUTABO flag). -/
def RpcItemType.isRequest : RpcItemType → Bool
  | .M0_RPC_MUTABO_REQ => true
  | .M0_RPC_ITEM_TYPE_REQUEST => true
  | .M0_RPC_ITEM_TYPE_REPLY => false

/-- An item type declares the operation as state-mutating (MUTABO flag). -/
def RpcItemType.isMutabo : RpcItemType → Bool
  | .M0_RPC_MUTABO_REQ => true
  | _ => false

/-- One call to `m0_cm_trigger_fop_init(&fopt, opcode, name, xc, itemType,
&sns_rebalance_cmt, &m0_sns_trigger_fom_type_ops)`: the cm-type and fom-ops
arguments are the same for all eight calls and are omitted. -/
structure FopTypeReg where
  fopt : FoptId
  opcode : Opcode
  fopName : String
  xc : XcSchema
  itemType : RpcItemType
  deriving DecidableEq, Repr

/-- The registration sequence performed by
`m0_sns_cm_rebalance_trigger_fop_init` (trigger_fop.c, lines 52–112),
in call order. -/
def m0_sns_cm_rebalance_trigger_fop_init : List FopTypeReg :=
  [ ⟨.m0_sns_rebalance_trigger_fopt, .M0_SNS_REBALANCE_TRIGGER_OPCODE,
      "sns rebalance trigger", .trigger_fop_xc, .M0_RPC_MUTABO_REQ⟩,
    ⟨.m0_sns_rebalance_trigger_rep_fopt, .M0_SNS_REBALANCE_TRIGGER_REP_OPCODE,
      "sns rebalance trigger reply", .trigger_rep_fop_xc, .M0_RPC_ITEM_TYPE_REPLY⟩,
    ⟨.m0_sns_rebalance_quiesce_fopt, .M0_SNS_REBALANCE_QUIESCE_OPCODE,
      "sns rebalance quiesce trigger", .trigger_fop_xc, .M0_RPC_MUTABO_REQ⟩,
    ⟨.m0_sns_rebalance_quiesce_rep_fopt, .M0_SNS_REBALANCE_QUIESCE_REP_OPCODE,
      "sns rebalance quiesce trigger reply", .trigger_rep_fop_xc, .M0_RPC_ITEM_TYPE_REPLY⟩,
    ⟨.m0_sns_rebalance_status_fopt, .M0_SNS_REBALANCE_STATUS_OPCODE,
      "sns rebalance status", .trigger_fop_xc, .M0_RPC_MUTABO_REQ⟩,
    ⟨.m0_sns_rebalance_status_rep_fopt, .M0_SNS_REBALANCE_STATUS_REP_OPCODE,
      "sns rebalance status reply", .m0_status_rep_fop_xc, .M0_RPC_ITEM_TYPE_REPLY⟩,
    ⟨.m0_sns_rebalance_abort_fopt, .M0_SNS_REBALANCE_ABORT_OPCODE,
      "sns rebalance abort", .m0_status_rep_fop_xc, .M0_RPC_ITEM_TYPE_REQUEST⟩,
    ⟨.m0_sns_rebalance_abort_rep_fopt, .M0_SNS_REBALANCE_ABORT_REP_OPCODE,
      "sns rebalance abort reply", .m0_status_rep_fop_xc, .M0_RPC_ITEM_TYPE_REPLY⟩ ]

/-- The deregistration sequence performed by
`m0_sns_cm_rebalance_trigger_fop_fini` (trigger_fop.c, lines 40–50): one
`m0_cm_trigger_fop_fini(&fopt)` call per fop type, in call order. -/
def m0_sns_cm_rebalance_trigger_fop_fini : List FoptId :=
  [ .m0_sns_rebalance_trigger_fopt,
    .m0_sns_rebalance_trigger_rep_fopt,
    .m0_sns_rebalance_quiesce_fopt,
    .m0_sns_rebalance_quiesce_rep_fopt,
    .m0_sns_rebalance_status_fopt,
    .m0_sns_rebalance_status_rep_fopt,
    .m0_sns_rebalance_abort_fopt,
    .m0_sns_rebalance_abort_rep_fopt ]

/-- The registry of currently registered fop types, as the multiset of
registered entries: `m0_cm_trigger_fop_init` adds an entry,
`m0_cm_trigger_fop_fini` removes the entry for its fop type. -/
def registerAll (regs : List FopTypeReg) (registry : List FopTypeReg) : List FopTypeReg :=
  registry ++ regs

/-- Deregistration of one fop type removes its entries from the registry. -/
def deregister (registry : List FopTypeReg) (f : FoptId) : List FopTypeReg :=
  registry.filter (fun r => decide (r.fopt ≠ f))

/-- Run a sequence of `m0_cm_trigger_fop_fini` calls. -/
def deregisterAll (fs : List FoptId) (registry : List FopTypeReg) : List FopTypeReg :=
  fs.foldl deregister registry

/-- Look up the registration entry for a fop type in the init sequence. -/
def regOf (f : FoptId) : Option FopTypeReg :=
  m0_sns_cm_rebalance_trigger_fop_init.find? (fun r => decide (r.fopt = f))

/-! ## Operation state machine and control dispatcher

Modelled from the spec: the sources contain only the message-type
registration code, so the per-node operation state machine (§4.2), control
dispatcher (§4.3) and status aggregator (§4.4) are embedded from the spec's
transition table, edge-case policy and error taxonomy. -/

/-- Modelled from the spec: control verbs of the protocol (§3). -/
inductive Verb
  | trigger
  | quiesce
  | status
  | abort
  deriving DecidableEq, Repr

/-- Modelled from the spec: operation kinds (§3), a closed enum. -/
inductive OperationKind
  | repair
  | rebalance
  deriving DecidableEq, Repr

/-- Modelled from the spec: machine states (§4.2). `idle` means no operation
exists; `stopped` and `failed` are terminal for an instance. -/
inductive OpState
  | idle
  | active
  | quiescing
  | quiesced
  | stopping
  | stopped
  | failed
  deriving DecidableEq, Repr

/-- States `stopped` and `failed` are the terminal states (§4.2). -/
def OpState.isTerminal : OpState → Bool
  | .stopped => true
  | .failed => true
  | _ => false

/-- Modelled from the spec: a stable (non-transitional) state is every state
except the transitional `quiescing`/`stopping` (§5 speaks of observing "a
terminal or stable state"). -/
def OpState.isStable : OpState → Bool
  | .quiescing => false
  | .stopping => false
  | _ => true

/-- Modelled from the spec: reply result codes (§4.3, §6). -/
inductive ResultCode
  | ok
  | invalidState
  | operationBusy
  | unsupportedKind
  | notFound
  | internal
  deriving DecidableEq, Repr

/-- Modelled from the spec: progress counters of the Operation Descriptor
(§3): objects scanned, objects repaired, bytes transferred, error count. -/
structure Progress where
  scanned : Nat
  repaired : Nat
  bytes : Nat
  errors : Nat
  deriving DecidableEq, Repr

def zeroProgress : Progress := ⟨0, 0, 0, 0⟩

/-- Modelled from the spec: the Operation Descriptor (§3) — one
repair/rebalance run on one node. A descriptor only exists once a TRIGGER
succeeded, so its state is never `idle`. -/
structure Descr where
  instanceId : Nat
  state : OpState
  progress : Progress
  startedAt : Nat
  lastTransitionAt : Nat
  deriving DecidableEq, Repr

/-- Modelled from the spec: the per-(node, operation_kind) storage — the
current descriptor, if any, plus the archive of reaped descriptors (§3:
a descriptor is destroyed/archived after reaching a terminal state, or
superseded by a new TRIGGER). -/
structure KindSlot where
  cur : Option Descr
  archived : List Descr
  deriving DecidableEq, Repr

def initSlot : KindSlot := ⟨none, []⟩

/-- The state the dispatcher sees for a kind: `idle` when no descriptor
exists, otherwise the current descriptor's state. -/
def slotState (s : KindSlot) : OpState :=
  match s.cur with
  | none => .idle
  | some d => d.state

/-- All descriptors of a slot, current first. -/
def slotDescrs (s : KindSlot) : List Descr :=
  (match s.cur with | none => [] | some d => [d]) ++ s.archived

/-- Number of non-terminal descriptors in a slot. -/
def nonTerminalCount (s : KindSlot) : Nat :=
  (slotDescrs s).countP (fun d => !d.state.isTerminal)

/-- Modelled from the spec: a Control Reply (§3) — result code plus the
state snapshot (state, progress, instance id, timestamps) rendered by the
status aggregator; correlation id omitted (it merely echoes the request). -/
structure Reply where
  result : ResultCode
  snapState : OpState
  snapProgress : Progress
  snapInstanceId : Option Nat
  snapStartedAt : Nat
  snapLastTransitionAt : Nat
  deriving DecidableEq, Repr

/-- The timestamp-free part of a reply's snapshot (state, progress,
instance id), used to compare snapshots "identical except timestamps". -/
def Reply.core (r : Reply) : ResultCode × OpState × Progress × Option Nat :=
  (r.result, r.snapState, r.snapProgress, r.snapInstanceId)

/-- Modelled from the spec: the status aggregator's snapshot (§4.4) —
zeroed counters with state `idle` when no operation has ever been
triggered, otherwise the current descriptor's fields. -/
def mkReply (rc : ResultCode) (s : KindSlot) : Reply :=
  match s.cur with
  | none => ⟨rc, .idle, zeroProgress, none, 0, 0⟩
  | some d => ⟨rc, d.state, d.progress, some d.instanceId, d.startedAt, d.lastTransitionAt⟩

/-- Modelled from the spec: the Control Dispatcher's handling of one
request for one operation kind (§4.2 transition table, §4.2 edge-case
policy, §4.3). Arguments: verb, request time `t`, the kind's slot, and the
node's next fresh instance id. Returns the reply, the updated slot and the
updated next instance id. The transitions:

* `idle` × TRIGGER → `active` (descriptor created);
* `active` × TRIGGER → `active` (idempotent no-op, same instance id);
* `quiescing`/`stopping` × TRIGGER → `OPERATION_BUSY` (TRIGGER racing an
  in-flight QUIESCE/ABORT is rejected, §4.2 edge-case policy);
* `stopped`/`failed` × TRIGGER → `active` with a fresh instance id, old
  descriptor reaped to the archive;
* `active` × QUIESCE → `quiescing`; `quiescing`/`quiesced` × QUIESCE →
  unchanged (idempotent);
* `active`/`quiescing`/`quiesced` × ABORT → `stopping`; `stopping` × ABORT
  → unchanged (idempotent, §5: ABORT accepted from any non-terminal state
  of an existing run and idempotent);
* any state × STATUS → unchanged, snapshot returned (`NOT_FOUND` when no
  descriptor has ever been created, §4.3/§8);
* every other (state, verb) pair → `INVALID_STATE`, nothing changes. -/
def dispatchSlot (v : Verb) (t : Nat) (s : KindSlot) (nid : Nat) :
    Reply × KindSlot × Nat :=
  match v with
  | .status =>
    match s.cur with
    | none => (mkReply .notFound s, s, nid)
    | some _ => (mkReply .ok s, s, nid)
  | .trigger =>
    match s.cur with
    | none =>
      let s' : KindSlot := ⟨some ⟨nid, .active, zeroProgress, t, t⟩, s.archived⟩
      (mkReply .ok s', s', nid + 1)
    | some d =>
      match d.state with
      | .active => (mkReply .ok s, s, nid)
      | .quiescing => (mkReply .operationBusy s, s, nid)
      | .stopping => (mkReply .operationBusy s, s, nid)
      | .stopped =>
        let s' : KindSlot := ⟨some ⟨nid, .active, zeroProgress, t, t⟩, d :: s.archived⟩
        (mkReply .ok s', s', nid + 1)
      | .failed =>
        let s' : KindSlot := ⟨some ⟨nid, .active, zeroProgress, t, t⟩, d :: s.archived⟩
        (mkReply .ok s', s', nid + 1)
      | _ => (mkReply .invalidState s, s, nid)
  | .quiesce =>
    match s.cur with
    | some d =>
      match d.state with
      | .active =>
        let s' : KindSlot := ⟨some { d with state := .quiescing, lastTransitionAt := t }, s.archived⟩
        (mkReply .ok s', s', nid)
      | .quiescing => (mkReply .ok s, s, nid)
      | .quiesced => (mkReply .ok s, s, nid)
      | _ => (mkReply .invalidState s, s, nid)
    | none => (mkReply .invalidState s, s, nid)
  | .abort =>
    match s.cur with
    | some d =>
      match d.state with
      | .active =>
        let s' : KindSlot := ⟨some { d with state := .stopping, lastTransitionAt := t }, s.archived⟩
        (mkReply .ok s', s', nid)
      | .quiescing =>
        let s' : KindSlot := ⟨some { d with state := .stopping, lastTransitionAt := t }, s.archived⟩
        (mkReply .ok s', s', nid)
      | .quiesced =>
        let s' : KindSlot := ⟨some { d with state := .stopping, lastTransitionAt := t }, s.archived⟩
        (mkReply .ok s', s', nid)
      | .stopping => (mkReply .ok s, s, nid)
      | _ => (mkReply .invalidState s, s, nid)
    | none => (mkReply .invalidState s, s, nid)

/-- Modelled from the spec: the (state, verb) pairs listed in the §4.2
transition table together with the §4.2 edge-case policy (TRIGGER during an
in-flight QUIESCE/ABORT → `OPERATION_BUSY`) and the universal STATUS row;
every pair not listed here is an invalid transition. -/
def listedTransition : OpState → Verb → Bool
  | _, .status => true
  | .idle, .trigger => true
  | .active, .trigger => true
  | .quiescing, .trigger => true
  | .stopping, .trigger => true
  | .stopped, .trigger => true
  | .failed, .trigger => true
  | .active, .quiesce => true
  | .quiescing, .quiesce => true
  | .quiesced, .quiesce => true
  | .active, .abort => true
  | .quiescing, .abort => true
  | .quiesced, .abort => true
  | .stopping, .abort => true
  | _, _ => false

/-- Modelled from the spec: worker acknowledgment of a quiesce request —
`quiescing` → `quiesced` (§4.2). -/
def workerQuiesceAck (t : Nat) (s : KindSlot) : KindSlot :=
  match s.cur with
  | some d =>
    if d.state = .quiescing then
      ⟨some { d with state := .quiesced, lastTransitionAt := t }, s.archived⟩
    else s
  | none => s

/-- Modelled from the spec: worker confirmation of teardown — `stopping` →
`stopped` (§4.2). -/
def workerTeardownAck (t : Nat) (s : KindSlot) : KindSlot :=
  match s.cur with
  | some d =>
    if d.state = .stopping then
      ⟨some { d with state := .stopped, lastTransitionAt := t }, s.archived⟩
    else s
  | none => s

/-- Modelled from the spec: an unrecoverable internal worker failure forces
the descriptor to `failed` (§4.2/§7); terminal states are final (§4.2), so
a descriptor already terminal is left alone. -/
def workerFailure (t : Nat) (s : KindSlot) : KindSlot :=
  match s.cur with
  | some d =>
    if d.state.isTerminal then s
    else ⟨some { d with state := .failed, lastTransitionAt := t }, s.archived⟩
  | none => s

/-- Modelled from the spec: an asynchronous progress update from the
data-movement worker adds to the running descriptor's counters (§4.3/§5);
ignored when no non-terminal descriptor exists. -/
def workerProgress (p : Progress) (s : KindSlot) : KindSlot :=
  match s.cur with
  | some d =>
    if d.state.isTerminal then s
    else
      ⟨some { d with progress := ⟨d.progress.scanned + p.scanned,
                                  d.progress.repaired + p.repaired,
                                  d.progress.bytes + p.bytes,
                                  d.progress.errors + p.errors⟩ }, s.archived⟩
  | none => s

/-- Modelled from the spec: a node's control-plane state — one slot per
operation kind plus the node-wide fresh-instance-id counter. -/
structure Node where
  repairSlot : KindSlot
  rebalanceSlot : KindSlot
  nextId : Nat
  deriving DecidableEq, Repr

def initNode : Node := ⟨initSlot, initSlot, 0⟩

def slotOf (n : Node) : OperationKind → KindSlot
  | .repair => n.repairSlot
  | .rebalance => n.rebalanceSlot

def setSlot (n : Node) (k : OperationKind) (s : KindSlot) : Node :=
  match k with
  | .repair => { n with repairSlot := s }
  | .rebalance => { n with rebalanceSlot := s }

/-- Modelled from the spec: the events a node's dispatcher consumes —
control requests and asynchronous worker events (§4.3/§5), each carrying
its arrival time. -/
inductive Event
  | request (k : OperationKind) (v : Verb) (t : Nat)
  | quiesceAck (k : OperationKind) (t : Nat)
  | teardownAck (k : OperationKind) (t : Nat)
  | failure (k : OperationKind) (t : Nat)
  | progressUpdate (k : OperationKind) (p : Progress)
  deriving DecidableEq, Repr

/-- Modelled from the spec: one dispatcher step — requests go through the
transition table, worker events through the corresponding worker handler,
all under the per-kind exclusion (§4.3), so each step is atomic. -/
def stepNode (n : Node) (e : Event) : Node :=
  match e with
  | .request k v t =>
    let r := dispatchSlot v t (slotOf n k) n.nextId
    { setSlot n k r.2.1 with nextId := r.2.2 }
  | .quiesceAck k t => setSlot n k (workerQuiesceAck t (slotOf n k))
  | .teardownAck k t => setSlot n k (workerTeardownAck t (slotOf n k))
  | .failure k t => setSlot n k (workerFailure t (slotOf n k))
  | .progressUpdate k p => setSlot n k (workerProgress p (slotOf n k))

/-- The node state after consuming a sequence of events from start-up. -/
def runNode (evs : List Event) : Node :=
  evs.foldl stepNode initNode

/-- The reply produced by a request event against a node state. -/
def replyAt (n : Node) (k : OperationKind) (v : Verb) (t : Nat) : Reply :=
  (dispatchSlot v t (slotOf n k) n.nextId).1

/-- A slot's archive holds only terminal descriptors. -/
def archivedTerminal (s : KindSlot) : Prop :=
  ∀ d ∈ s.archived, d.state.isTerminal = true

/-- Event `e` is a TRIGGER request for kind `k`. -/
def hasTriggerFor (k : OperationKind) : Event → Bool
  | .request k2 .trigger _ => decide (k2 = k)
  | _ => false

/-- A node's control-plane invariant: every archived descriptor is
terminal, for both kinds. -/
def nodeInv (n : Node) : Prop :=
  archivedTerminal n.repairSlot ∧ archivedTerminal n.rebalanceSlot

/-! ## Processor topology (from `lib/processor.h`) -/

/-- Embedded from `struct m0_processor_descr` (processor.h, lines 168–186);
the `uint32_t` and `size_t` fields are machine naturals. -/
structure m0_processor_descr where
  pd_id : Nat
  pd_numa_node : Nat
  pd_l1 : Nat
  pd_l2 : Nat
  pd_l1_sz : Nat
  pd_l2_sz : Nat
  pd_pipeline : Nat
  deriving DecidableEq, Repr

/-- Embedded from processor.h, line 58:
`#define M0_PROCESSORS_INVALID_ID ((uint32_t)-1)`. -/
def M0_PROCESSORS_INVALID_ID : Nat := 2 ^ 32 - 1

/-- The `-EINVAL` error number returned by `m0_processor_describe`. -/
def EINVAL : Nat := 22

/-- Modelled from the spec: the data the processor interface caches at
`m0_processors_init` time — the implementing translation unit is not among
the sources, so the node's processor table, the three enumeration sets and
the calling thread's placement are modelled as explicit data consulted by
the query functions (§6 topology service; processor.h contracts). -/
structure ProcSys where
  inited : Bool
  nrMax : Nat
  descrs : List m0_processor_descr
  possibleIds : List Nat
  availableIds : List Nat
  onlineIds : List Nat
  idQuerySupported : Bool
  currentThreadProcId : Nat
  deriving DecidableEq, Repr

/-- Modelled from the spec: `m0_processor_nr_max()` (processor.h, lines
93–96) — the maximum number of processors this system can handle. -/
def m0_processor_nr_max (sys : ProcSys) : Nat := sys.nrMax

/-- A well-formed cached topology: every enumerated processor id is below
`m0_processor_nr_max`. -/
def ProcSys.wf (sys : ProcSys) : Prop :=
  (∀ i ∈ sys.possibleIds, i < sys.nrMax) ∧
  (∀ i ∈ sys.availableIds, i < sys.nrMax) ∧
  (∀ i ∈ sys.onlineIds, i < sys.nrMax)

/-- Modelled from the spec: `m0_processor_describe(id, pd)` (processor.h,
lines 188–208) — returns 0 and fills `pd` from the processor table when a
processor with the requested id exists, and `-EINVAL` when the id matches
no processor or a NULL `pd` pointer is passed. The out-parameter is
modelled by returning the filled descriptor; `none` stands for "not
meaningfully filled" and `pdNull` models passing a NULL `pd`. -/
def m0_processor_describe (sys : ProcSys) (id : Nat) (pdNull : Bool) :
    Int × Option m0_processor_descr :=
  if pdNull then (-(EINVAL : Int), none)
  else
    match sys.descrs.find? (fun d => decide (d.pd_id = id)) with
    | some d => (0, some d)
    | none => (-(EINVAL : Int), none)

/-- Modelled from the spec: `m0_processor_id_get()` (processor.h, lines
128–136) — returns the calling thread's logical processor id when the
query is supported by the platform, and the sentinel
`M0_PROCESSORS_INVALID_ID` when it is not; ids are `uint32_t`, so the
supported result is reduced mod 2^32. -/
def m0_processor_id_get (sys : ProcSys) : Nat :=
  if sys.idQuerySupported then sys.currentThreadProcId % 2 ^ 32
  else M0_PROCESSORS_INVALID_ID

/-- Modelled from the spec: `struct m0_bitmap` (lib/bitmap.h, not among the
sources) — a caller-allocated bitmap of `b_nr` bits, the bit storage
modelled as a list of booleans. -/
structure m0_bitmap where
  b_nr : Nat
  bits : List Bool
  deriving DecidableEq, Repr

/-- Modelled from the spec: `m0_bitmap_set` (lib/bitmap.h, not among the
sources) stores a bit at an index within the map's bounds; an
out-of-bounds index is the error/overflow branch, modelled as `none`. -/
def m0_bitmap_set (m : m0_bitmap) (i : Nat) (v : Bool) : Option m0_bitmap :=
  if i < m.b_nr then some ⟨m.b_nr, m.bits.set i v⟩ else none

/-- Modelled from the spec: the common body of the three enumeration
queries (processor.h, lines 98–126) — requires `m0_processors_init` to
have been called, then stores a bit for every processor id in the queried
set; `none` models reaching an error/overflow branch (uninitialized
interface or an out-of-bounds write). -/
def enumerateInto (ids : List Nat) (sys : ProcSys) (map : m0_bitmap) :
    Option m0_bitmap :=
  if sys.inited = false then none
  else ids.foldl (fun acc i => acc.bind (fun m => m0_bitmap_set m i true)) (some map)

/-- Modelled from the spec: `m0_processors_possible(map)` (processor.h,
lines 98–106) — fills the caller's bitmap with the possible processors. -/
def m0_processors_possible (sys : ProcSys) (map : m0_bitmap) : Option m0_bitmap :=
  enumerateInto sys.possibleIds sys map

/-- Modelled from the spec: `m0_processors_available(map)` (processor.h,
lines 108–116) — fills the caller's bitmap with the available processors. -/
def m0_processors_available (sys : ProcSys) (map : m0_bitmap) : Option m0_bitmap :=
  enumerateInto sys.availableIds sys map

/-- Modelled from the spec: `m0_processors_online(map)` (processor.h,
lines 118–126) — fills the caller's bitmap with the online processors. -/
def m0_processors_online (sys : ProcSys) (map : m0_bitmap) : Option m0_bitmap :=
  enumerateInto sys.onlineIds sys map

/-- A concrete two-processor topology used by the witnesses. -/
def procSysA : ProcSys :=
  ⟨true, 4, [⟨0, 0, 0, 0, 32768, 262144, 0⟩, ⟨3, 1, 3, 3, 32768, 262144, 3⟩],
    [0, 3], [0, 3], [3], true, 3⟩

/-! ## Helper lemmas -/

theorem dispatchSlot_status_frame (t : Nat) (s : KindSlot) (nid : Nat) :
    (dispatchSlot .status t s nid).2 = (s, nid) := by
  cases h : s.cur <;> simp [dispatchSlot, h]

theorem setSlot_self (n : Node) (k : OperationKind) : setSlot n k (slotOf n k) = n := by
  cases n
  cases k <;> rfl

theorem stepNode_status (n : Node) (k : OperationKind) (t : Nat) :
    stepNode n (.request k .status t) = n := by
  obtain ⟨⟨rc, ra⟩, ⟨bc, ba⟩, nid⟩ := n
  cases k <;> cases rc <;> cases bc <;> rfl

/-! ## Claim theorems: message catalog -/

/-- C4: `m0_sns_cm_rebalance_trigger_fop_init` registers eight fop types,
one request/reply pair per verb (entries alternate request, reply), all
with pairwise distinct opcodes, and `m0_sns_cm_rebalance_trigger_fop_fini`
deregisters exactly the same eight fop types, so an init followed by a
fini leaves the registry empty. -/
theorem catalog_completeness_and_teardown :
    m0_sns_cm_rebalance_trigger_fop_init.length = 8 ∧
    m0_sns_cm_rebalance_trigger_fop_init.map FopTypeReg.fopt =
      m0_sns_cm_rebalance_trigger_fop_fini ∧
    (m0_sns_cm_rebalance_trigger_fop_init.map FopTypeReg.opcode).Nodup ∧
    (m0_sns_cm_rebalance_trigger_fop_init.map FopTypeReg.fopt).Nodup ∧
    m0_sns_cm_rebalance_trigger_fop_init.map (fun r => r.itemType.isRequest) =
      [true, false, true, false, true, false, true, false] ∧
    deregisterAll m0_sns_cm_rebalance_trigger_fop_fini
      (registerAll m0_sns_cm_rebalance_trigger_fop_init []) = [] := by
  decide

/-- C5: evaluation of the registration code at the divergence — the ABORT
request fop type is registered with the reply payload schema
`m0_status_rep_fop_xc` and the plain request item type, while the other
three verbs' requests are all registered with the request payload schema
`trigger_fop_xc` and `M0_RPC_MUTABO_REQ`; the ABORT request does not follow
the pattern of the other three requests. -/
theorem abort_request_schema_divergence :
    (regOf .m0_sns_rebalance_abort_fopt).map FopTypeReg.xc =
      some .m0_status_rep_fop_xc ∧
    (regOf .m0_sns_rebalance_abort_fopt).map FopTypeReg.xc ≠
      some .trigger_fop_xc ∧
    (regOf .m0_sns_rebalance_abort_fopt).map FopTypeReg.itemType =
      some .M0_RPC_ITEM_TYPE_REQUEST ∧
    (regOf .m0_sns_rebalance_trigger_fopt).map FopTypeReg.xc =
      some .trigger_fop_xc ∧
    (regOf .m0_sns_rebalance_quiesce_fopt).map FopTypeReg.xc =
      some .trigger_fop_xc ∧
    (regOf .m0_sns_rebalance_status_fopt).map FopTypeReg.xc =
      some .trigger_fop_xc ∧
    (regOf .m0_sns_rebalance_trigger_fopt).map FopTypeReg.itemType =
      some .M0_RPC_MUTABO_REQ ∧
    (regOf .m0_sns_rebalance_quiesce_fopt).map FopTypeReg.itemType =
      some .M0_RPC_MUTABO_REQ := by
  decide

/-- C6 counterexample: the STATUS request message type is registered with
`M0_RPC_MUTABO_REQ`, the request item type carrying the MUTABO
(state-mutating operation) flag — the request is not declared as a
read-only, non-mutating operation. -/
theorem status_request_declared_mutabo :
    (regOf .m0_sns_rebalance_status_fopt).map FopTypeReg.itemType =
      some .M0_RPC_MUTABO_REQ ∧
    (regOf .m0_sns_rebalance_status_fopt).map
      (fun r => r.itemType.isMutabo) = some true := by
  decide

/-! ## Claim theorems: state machine -/

/-- C6 (amended): STATUS is handled as side-effect free — processing a
STATUS request leaves the slot (descriptor state and progress counters)
and the instance-id counter unchanged, inserting a STATUS request anywhere
into an event sequence does not change the node state reached, and hence
repeating STATUS any number of times, in any state, never changes the
outcome of later requests. -/
theorem status_side_effect_free :
    (∀ (t : Nat) (s : KindSlot) (nid : Nat),
        (dispatchSlot .status t s nid).2 = (s, nid)) ∧
    (∀ (pre suf : List Event) (k : OperationKind) (t : Nat),
        runNode (pre ++ Event.request k .status t :: suf) = runNode (pre ++ suf)) ∧
    (∀ (n : Node) (k k2 : OperationKind) (v : Verb) (t t2 : Nat),
        replyAt (stepNode n (.request k .status t)) k2 v t2 = replyAt n k2 v t2) := by
  refine ⟨dispatchSlot_status_frame, fun pre suf k t => ?_, fun n k k2 v t t2 => ?_⟩
  · simp [runNode, List.foldl_append, stepNode_status]
  · rw [stepNode_status]

theorem slotOf_setSlot (n : Node) (k k2 : OperationKind) (s : KindSlot) :
    slotOf (setSlot n k2 s) k = if k2 = k then s else slotOf n k := by
  cases n
  cases k <;> cases k2 <;> simp [setSlot, slotOf]

theorem step_keeps_idle (n : Node) (k : OperationKind) (e : Event)
    (hk : slotOf n k = initSlot) (he : hasTriggerFor k e = false) :
    slotOf (stepNode n e) k = initSlot := by
  obtain ⟨⟨rc, ra⟩, ⟨bc, ba⟩, nid⟩ := n
  cases e with
  | request k2 v t =>
    cases k <;> cases k2 <;> cases v <;>
      simp_all [hasTriggerFor, stepNode, slotOf, setSlot, initSlot,
        dispatchSlot, mkReply]
  | quiesceAck k2 t =>
    cases k <;> cases k2 <;>
      simp_all [stepNode, slotOf, setSlot, initSlot, workerQuiesceAck]
  | teardownAck k2 t =>
    cases k <;> cases k2 <;>
      simp_all [stepNode, slotOf, setSlot, initSlot, workerTeardownAck]
  | failure k2 t =>
    cases k <;> cases k2 <;>
      simp_all [stepNode, slotOf, setSlot, initSlot, workerFailure]
  | progressUpdate k2 p =>
    cases k <;> cases k2 <;>
      simp_all [stepNode, slotOf, setSlot, initSlot, workerProgress]

theorem run_keeps_idle (evs : List Event) (k : OperationKind) :
    ∀ n : Node, slotOf n k = initSlot →
      (∀ e ∈ evs, hasTriggerFor k e = false) →
      slotOf (evs.foldl stepNode n) k = initSlot := by
  induction evs with
  | nil => intro n h _; simpa using h
  | cons e evs ih =>
    intro n h hall
    simp only [List.foldl_cons]
    exact ih _ (step_keeps_idle n k e h (hall e (by simp)))
      (fun e2 he2 => hall e2 (by simp [he2]))

/-- C7: for an operation kind that has never received a TRIGGER, the slot
is still in its initial (idle) state and a STATUS request yields the one
reply `NOT_FOUND` with state `idle` and all progress counters zero. -/
theorem status_on_never_triggered (evs : List Event) (k : OperationKind) (t : Nat)
    (h : ∀ e ∈ evs, hasTriggerFor k e = false) :
    slotOf (runNode evs) k = initSlot ∧
    replyAt (runNode evs) k .status t =
      ⟨.notFound, .idle, zeroProgress, none, 0, 0⟩ := by
  have hs : slotOf (runNode evs) k = initSlot :=
    run_keeps_idle evs k initNode (by cases k <;> rfl) h
  refine ⟨hs, ?_⟩
  simp only [replyAt, hs]
  rfl

/-- Witness for C7 at a concrete run: a repair TRIGGER and a rebalance
QUIESCE were processed, but the rebalance kind was never triggered. -/
theorem status_on_never_triggered_witness :
    (∀ e ∈ [Event.request .repair .trigger 0, Event.request .rebalance .quiesce 1],
        hasTriggerFor .rebalance e = false) ∧
    replyAt (runNode [Event.request .repair .trigger 0, Event.request .rebalance .quiesce 1])
        .rebalance .status 5 =
      ⟨.notFound, .idle, zeroProgress, none, 0, 0⟩ :=
  ⟨by decide,
    (status_on_never_triggered
      [Event.request .repair .trigger 0, Event.request .rebalance .quiesce 1]
      .rebalance 5 (by decide)).2⟩

/-- C3: for every (state, verb) pair not listed in the transition table —
in particular QUIESCE or ABORT in `stopped` or `failed` — the dispatcher
replies `INVALID_STATE` and leaves the slot and the instance-id counter
unchanged; moreover on every non-OK reply nothing is applied at all. -/
theorem invalid_transition_atomicity (v : Verb) (t : Nat) (s : KindSlot) (nid : Nat) :
    (listedTransition (slotState s) v = false →
      (dispatchSlot v t s nid).1.result = .invalidState ∧
      (dispatchSlot v t s nid).2.1 = s ∧
      (dispatchSlot v t s nid).2.2 = nid) ∧
    ((dispatchSlot v t s nid).1.result ≠ .ok →
      (dispatchSlot v t s nid).2.1 = s ∧ (dispatchSlot v t s nid).2.2 = nid) := by
  obtain ⟨cur, arch⟩ := s
  rcases cur with _ | ⟨id, st, pr, sa, lt⟩ <;> cases v <;>
    first
      | (cases st <;>
          simp [dispatchSlot, slotState, listedTransition, mkReply])
      | simp [dispatchSlot, slotState, listedTransition, mkReply]

/-- Witness for C3 at a concrete input: QUIESCE against a `stopped`
descriptor is not a listed transition, is answered `INVALID_STATE`, and
changes nothing. -/
theorem invalid_transition_atomicity_witness :
    listedTransition
        (slotState ⟨some ⟨0, .stopped, zeroProgress, 0, 2⟩, []⟩) .quiesce = false ∧
    (dispatchSlot .quiesce 3 ⟨some ⟨0, .stopped, zeroProgress, 0, 2⟩, []⟩ 1).1.result =
      .invalidState ∧
    (dispatchSlot .quiesce 3 ⟨some ⟨0, .stopped, zeroProgress, 0, 2⟩, []⟩ 1).2.1 =
      ⟨some ⟨0, .stopped, zeroProgress, 0, 2⟩, []⟩ :=
  ⟨by decide,
    ((invalid_transition_atomicity .quiesce 3
        ⟨some ⟨0, .stopped, zeroProgress, 0, 2⟩, []⟩ 1).1 (by decide)).1,
    ((invalid_transition_atomicity .quiesce 3
        ⟨some ⟨0, .stopped, zeroProgress, 0, 2⟩, []⟩ 1).1 (by decide)).2.1⟩

/-- C2 counterexample: `stopped` is a reachable stable state (reached here
by TRIGGER, ABORT, worker teardown), yet applying QUIESCE there yields the
error `INVALID_STATE`, not an OK reply — so applying the same verb twice
against this stable state does not yield two OK replies. -/
theorem verb_idempotency_counterexample :
    slotState (slotOf
        (runNode [Event.request .rebalance .trigger 0,
                  Event.request .rebalance .abort 1,
                  Event.teardownAck .rebalance 2]) .rebalance) = .stopped ∧
    OpState.isStable .stopped = true ∧
    (replyAt (runNode [Event.request .rebalance .trigger 0,
                       Event.request .rebalance .abort 1,
                       Event.teardownAck .rebalance 2]) .rebalance .quiesce 3).result =
      .invalidState := by
  decide

/-- C2 (amended): for every verb other than STATUS applied against a
stable state, if the first application returns OK then the immediate
second application also returns OK, with a state snapshot identical to the
first reply's (result, state, progress and instance id all equal), and the
second application changes neither the slot nor the instance-id counter. -/
theorem verb_idempotent_retry (s : KindSlot) (nid : Nat) (v : Verb) (t1 t2 : Nat)
    (r1 : Reply) (s1 : KindSlot) (nid1 : Nat)
    (hv : v ≠ .status) (hs : (slotState s).isStable = true)
    (h1 : dispatchSlot v t1 s nid = (r1, s1, nid1)) (hok : r1.result = .ok) :
    (dispatchSlot v t2 s1 nid1).1.core = r1.core ∧
    (dispatchSlot v t2 s1 nid1).2.1 = s1 ∧
    (dispatchSlot v t2 s1 nid1).2.2 = nid1 := by
  obtain ⟨cur, arch⟩ := s
  rcases cur with _ | ⟨id, st, pr, sa, lt⟩ <;> cases v <;>
      (try exact absurd rfl hv) <;> (try cases st) <;>
      simp only [dispatchSlot, mkReply, Prod.mk.injEq] at h1 <;>
      obtain ⟨hr, hs1, hn⟩ := h1 <;> subst hr <;> subst hs1 <;> subst hn <;>
      simp_all [dispatchSlot, mkReply, Reply.core]

/-- Witness for C2 (amended) at a concrete input: TRIGGER from idle
returns OK, and the immediate retry returns the same OK snapshot. -/
theorem verb_idempotent_retry_witness :
    Verb.trigger ≠ Verb.status ∧
    (slotState initSlot).isStable = true ∧
    dispatchSlot .trigger 0 initSlot 0 =
      (⟨.ok, .active, zeroProgress, some 0, 0, 0⟩,
        ⟨some ⟨0, .active, zeroProgress, 0, 0⟩, []⟩, 1) ∧
    (dispatchSlot .trigger 1 ⟨some ⟨0, .active, zeroProgress, 0, 0⟩, []⟩ 1).1.core =
      Reply.core ⟨.ok, .active, zeroProgress, some 0, 0, 0⟩ :=
  ⟨by decide, by decide, by decide,
    (verb_idempotent_retry initSlot 0 .trigger 0 1
      ⟨.ok, .active, zeroProgress, some 0, 0, 0⟩
      ⟨some ⟨0, .active, zeroProgress, 0, 0⟩, []⟩ 1
      (by decide) (by decide) (by decide) (by decide)).1⟩

theorem dispatchSlot_archived (v : Verb) (t : Nat) (s : KindSlot) (nid : Nat)
    (h : archivedTerminal s) : archivedTerminal (dispatchSlot v t s nid).2.1 := by
  obtain ⟨cur, arch⟩ := s
  rcases cur with _ | ⟨id, st, pr, sa, lt⟩ <;> cases v <;> (try cases st) <;>
    simp_all [dispatchSlot, archivedTerminal, OpState.isTerminal, mkReply]

theorem workerStep_archived (t : Nat) (p : Progress) (s : KindSlot) :
    (workerQuiesceAck t s).archived = s.archived ∧
    (workerTeardownAck t s).archived = s.archived ∧
    (workerFailure t s).archived = s.archived ∧
    (workerProgress p s).archived = s.archived := by
  obtain ⟨cur, arch⟩ := s
  rcases cur with _ | ⟨id, st, pr, sa, lt⟩ <;> (try cases st) <;>
    simp [workerQuiesceAck, workerTeardownAck, workerFailure, workerProgress,
      OpState.isTerminal]

theorem archivedTerminal_of_eq {s s2 : KindSlot} (h : s2.archived = s.archived)
    (hs : archivedTerminal s) : archivedTerminal s2 :=
  fun d hd => hs d (h ▸ hd)

theorem stepNode_inv (n : Node) (e : Event) (h : nodeInv n) : nodeInv (stepNode n e) := by
  obtain ⟨h1, h2⟩ := h
  cases e with
  | request k v t =>
    cases k
    · exact ⟨dispatchSlot_archived v t n.repairSlot n.nextId h1, h2⟩
    · exact ⟨h1, dispatchSlot_archived v t n.rebalanceSlot n.nextId h2⟩
  | quiesceAck k t =>
    cases k
    · exact ⟨archivedTerminal_of_eq (workerStep_archived t zeroProgress _).1 h1, h2⟩
    · exact ⟨h1, archivedTerminal_of_eq (workerStep_archived t zeroProgress _).1 h2⟩
  | teardownAck k t =>
    cases k
    · exact ⟨archivedTerminal_of_eq (workerStep_archived t zeroProgress _).2.1 h1, h2⟩
    · exact ⟨h1, archivedTerminal_of_eq (workerStep_archived t zeroProgress _).2.1 h2⟩
  | failure k t =>
    cases k
    · exact ⟨archivedTerminal_of_eq (workerStep_archived t zeroProgress _).2.2.1 h1, h2⟩
    · exact ⟨h1, archivedTerminal_of_eq (workerStep_archived t zeroProgress _).2.2.1 h2⟩
  | progressUpdate k p =>
    cases k
    · exact ⟨archivedTerminal_of_eq (workerStep_archived 0 p _).2.2.2 h1, h2⟩
    · exact ⟨h1, archivedTerminal_of_eq (workerStep_archived 0 p _).2.2.2 h2⟩

theorem runNode_inv (evs : List Event) : nodeInv (runNode evs) := by
  have hstep : ∀ n, nodeInv n → nodeInv (evs.foldl stepNode n) := by
    induction evs with
    | nil => intro n h; simpa using h
    | cons e evs ih => intro n h; exact ih _ (stepNode_inv n e h)
  exact hstep initNode
    ⟨fun d hd => absurd hd (List.not_mem_nil d),
     fun d hd => absurd hd (List.not_mem_nil d)⟩

theorem nonTerminalCount_le_one (s : KindSlot) (h : archivedTerminal s) :
    nonTerminalCount s ≤ 1 := by
  obtain ⟨cur, arch⟩ := s
  have harch : arch.countP (fun d => !d.state.isTerminal) = 0 := by
    rw [List.countP_eq_zero]
    intro d hd
    simp [h d hd]
  rcases cur with _ | d <;>
    simp [nonTerminalCount, slotDescrs, List.countP_cons, harch]
  split <;> simp

/-- C1: single-flight — in every reachable node state, at most one
non-terminal Operation Descriptor per operation kind exists; and when the
current descriptor of a kind is `active`, a further TRIGGER returns OK
carrying that descriptor's instance id and leaves the node unchanged (no
new descriptor is created). -/
theorem single_flight_invariant (evs : List Event) (k : OperationKind) :
    nonTerminalCount (slotOf (runNode evs) k) ≤ 1 ∧
    (∀ (d : Descr) (t : Nat),
      (slotOf (runNode evs) k).cur = some d → d.state = .active →
      (replyAt (runNode evs) k .trigger t).result = .ok ∧
      (replyAt (runNode evs) k .trigger t).snapInstanceId = some d.instanceId ∧
      stepNode (runNode evs) (.request k .trigger t) = runNode evs) := by
  constructor
  · have h := runNode_inv evs
    cases k
    · exact nonTerminalCount_le_one _ h.1
    · exact nonTerminalCount_le_one _ h.2
  · intro d t hcur hact
    have hdisp : dispatchSlot .trigger t (slotOf (runNode evs) k) (runNode evs).nextId =
        (mkReply .ok (slotOf (runNode evs) k), slotOf (runNode evs) k,
          (runNode evs).nextId) := by
      simp [dispatchSlot, hcur, hact]
    refine ⟨?_, ?_, ?_⟩
    · simp [replyAt, hdisp, mkReply, hcur]
    · simp [replyAt, hdisp, mkReply, hcur]
    · simp [stepNode, hdisp, setSlot_self]

/-- Witness for C1 at a concrete run: after a rebalance TRIGGER the
descriptor is active with instance id 0, and a second TRIGGER replies with
the same instance id while the node state is unchanged. -/
theorem single_flight_invariant_witness :
    (slotOf (runNode [Event.request .rebalance .trigger 0,
                      Event.request .rebalance .trigger 1]) .rebalance).cur =
      some ⟨0, .active, zeroProgress, 0, 0⟩ ∧
    (replyAt (runNode [Event.request .rebalance .trigger 0,
                       Event.request .rebalance .trigger 1])
        .rebalance .trigger 5).snapInstanceId = some 0 :=
  ⟨by decide,
    ((single_flight_invariant
        [Event.request .rebalance .trigger 0, Event.request .rebalance .trigger 1]
        .rebalance).2 ⟨0, .active, zeroProgress, 0, 0⟩ 5 (by decide) rfl).2.1⟩

/-! ## Claim theorems: processor topology -/

/-- C8: `m0_processor_describe(id, pd)` returns 0 exactly when `pd` is
non-NULL and a processor with the requested id exists; a filled descriptor
comes from the processor table and has `pd_id` equal to the requested id;
and every non-zero return is `-EINVAL` with the descriptor not filled. -/
theorem processor_describe_contract (sys : ProcSys) (id : Nat) (pdNull : Bool) :
    ((m0_processor_describe sys id pdNull).1 = 0 ↔
      pdNull = false ∧ ∃ d ∈ sys.descrs, d.pd_id = id) ∧
    (∀ d, (m0_processor_describe sys id pdNull).2 = some d →
      d.pd_id = id ∧ d ∈ sys.descrs) ∧
    ((m0_processor_describe sys id pdNull).1 ≠ 0 →
      (m0_processor_describe sys id pdNull).1 = -(EINVAL : Int) ∧
      (m0_processor_describe sys id pdNull).2 = none) := by
  cases pdNull with
  | true =>
    refine ⟨?_, ?_, ?_⟩
    · simp [m0_processor_describe, EINVAL]
    · intro d hd
      simp [m0_processor_describe] at hd
    · intro _
      exact ⟨rfl, rfl⟩
  | false =>
    cases hf : sys.descrs.find? (fun d => decide (d.pd_id = id)) with
    | none =>
      have hno : ∀ d ∈ sys.descrs, d.pd_id ≠ id := by
        intro d hd
        have h2 := List.find?_eq_none.mp hf d hd
        simpa using h2
      refine ⟨?_, ?_, ?_⟩
      · simp only [m0_processor_describe, hf, Bool.false_eq_true, if_false]
        constructor
        · intro h; exact absurd h (by simp [EINVAL])
        · rintro ⟨-, d, hd, he⟩; exact absurd he (hno d hd)
      · intro d hd
        simp [m0_processor_describe, hf] at hd
      · intro _
        simp [m0_processor_describe, hf]
    | some d =>
      have hpd : d.pd_id = id := by simpa using List.find?_some hf
      have hmem : d ∈ sys.descrs := List.mem_of_find?_eq_some hf
      refine ⟨?_, ?_, ?_⟩
      · simp only [m0_processor_describe, hf, Bool.false_eq_true, if_false]
        simp only [true_and, eq_self_iff_true, true_iff, iff_true]
        exact ⟨d, hmem, hpd⟩
      · intro d2 hd2
        simp only [m0_processor_describe, hf, Bool.false_eq_true, if_false,
          Option.some.injEq] at hd2
        subst hd2
        exact ⟨hpd, hmem⟩
      · intro hne
        exact absurd (by simp [m0_processor_describe, hf]) hne

/-- Witness for C8 at a concrete topology: describing processor 3 fills
the descriptor from the table, with `pd_id = 3`. -/
theorem processor_describe_contract_witness :
    (m0_processor_describe procSysA 3 false).2 =
      some ⟨3, 1, 3, 3, 32768, 262144, 3⟩ ∧
    (⟨3, 1, 3, 3, 32768, 262144, 3⟩ : m0_processor_descr).pd_id = 3 ∧
    (⟨3, 1, 3, 3, 32768, 262144, 3⟩ : m0_processor_descr) ∈ procSysA.descrs :=
  ⟨by decide,
    (processor_describe_contract procSysA 3 false).2.1
      ⟨3, 1, 3, 3, 32768, 262144, 3⟩ (by decide)⟩

/-- C9: on a well-formed system (thread placed on a real processor, fewer
than 2^32 processors), `m0_processor_id_get` returns the calling thread's
logical processor id when supported and the sentinel
`M0_PROCESSORS_INVALID_ID = (uint32_t)-1 = 4294967295` when unsupported,
and a supported result never collides with the sentinel, so callers can
always distinguish the two cases. -/
theorem processor_id_get_total (sys : ProcSys)
    (hcur : sys.currentThreadProcId < sys.nrMax) (hmax : sys.nrMax < 2 ^ 32) :
    M0_PROCESSORS_INVALID_ID = 4294967295 ∧
    (sys.idQuerySupported = false →
      m0_processor_id_get sys = M0_PROCESSORS_INVALID_ID) ∧
    (sys.idQuerySupported = true →
      m0_processor_id_get sys = sys.currentThreadProcId ∧
      m0_processor_id_get sys ≠ M0_PROCESSORS_INVALID_ID) := by
  have h32 : (2 : Nat) ^ 32 = 4294967296 := by norm_num
  have hlt : sys.currentThreadProcId < 2 ^ 32 := lt_trans hcur hmax
  refine ⟨by norm_num [M0_PROCESSORS_INVALID_ID], fun hsup => ?_, fun hsup => ?_⟩
  · simp [m0_processor_id_get, hsup]
  · have hlt2 : sys.currentThreadProcId < 4294967296 := h32 ▸ hlt
    have heq : m0_processor_id_get sys = sys.currentThreadProcId := by
      simp [m0_processor_id_get, hsup, Nat.mod_eq_of_lt, hlt2]
    refine ⟨heq, ?_⟩
    rw [heq, M0_PROCESSORS_INVALID_ID, h32]
    rw [h32] at hlt
    have hmax2 : sys.nrMax < 4294967296 := h32 ▸ hmax
    omega

/-- Witness for C9 at a concrete topology: the id query is supported and
returns 3, distinct from the sentinel. -/
theorem processor_id_get_total_witness :
    m0_processor_id_get procSysA = 3 ∧
    m0_processor_id_get procSysA ≠ M0_PROCESSORS_INVALID_ID :=
  (processor_id_get_total procSysA (by decide) (by norm_num [procSysA])).2.2 rfl

theorem enumerate_in_bounds_aux (ids : List Nat) (bnr : Nat)
    (hids : ∀ i ∈ ids, i < bnr) :
    ∀ map : m0_bitmap, bnr ≤ map.b_nr →
      ∃ m2,
        ids.foldl (fun acc i => acc.bind (fun m => m0_bitmap_set m i true)) (some map) =
          some m2 ∧
        m2.b_nr = map.b_nr ∧ m2.bits.length = map.bits.length := by
  induction ids with
  | nil => intro map _; exact ⟨map, rfl, rfl, rfl⟩
  | cons i ids ih =>
    intro map hb
    have hi : i < map.b_nr := lt_of_lt_of_le (hids i (by simp)) hb
    have hset : m0_bitmap_set map i true = some ⟨map.b_nr, map.bits.set i true⟩ := by
      simp [m0_bitmap_set, hi]
    simp only [List.foldl_cons, Option.some_bind, hset]
    obtain ⟨m2, h1, h2, h3⟩ :=
      ih (fun j hj => hids j (by simp [hj])) ⟨map.b_nr, map.bits.set i true⟩ hb
    exact ⟨m2, h1, h2, by simpa [List.length_set] using h3⟩

/-- C10: under the documented preconditions — `m0_processors_init` already
called and a caller bitmap with `b_nr ≥ m0_processor_nr_max()` — each of
the three enumeration queries succeeds (the error/overflow branch is
unreachable) and writes only within the bitmap's bounds: the bitmap keeps
its size. -/
theorem processors_enumeration_safe (sys : ProcSys) (map : m0_bitmap)
    (hwf : sys.wf) (hinit : sys.inited = true)
    (hb : m0_processor_nr_max sys ≤ map.b_nr) :
    (∃ m2, m0_processors_possible sys map = some m2 ∧
      m2.b_nr = map.b_nr ∧ m2.bits.length = map.bits.length) ∧
    (∃ m2, m0_processors_available sys map = some m2 ∧
      m2.b_nr = map.b_nr ∧ m2.bits.length = map.bits.length) ∧
    (∃ m2, m0_processors_online sys map = some m2 ∧
      m2.b_nr = map.b_nr ∧ m2.bits.length = map.bits.length) := by
  obtain ⟨h1, h2, h3⟩ := hwf
  refine ⟨?_, ?_, ?_⟩ <;>
    simp only [m0_processors_possible, m0_processors_available,
      m0_processors_online, enumerateInto, hinit, Bool.true_eq_false, if_false]
  · exact enumerate_in_bounds_aux sys.possibleIds sys.nrMax h1 map hb
  · exact enumerate_in_bounds_aux sys.availableIds sys.nrMax h2 map hb
  · exact enumerate_in_bounds_aux sys.onlineIds sys.nrMax h3 map hb

/-- Witness for C10 at a concrete topology and a four-bit caller bitmap. -/
theorem processors_enumeration_safe_witness :
    ∃ m2, m0_processors_possible procSysA ⟨4, [false, false, false, false]⟩ =
        some m2 ∧
      m2.b_nr = 4 ∧ m2.bits.length = 4 :=
  (processors_enumeration_safe procSysA ⟨4, [false, false, false, false]⟩
    ⟨by decide, by decide, by decide⟩ rfl (by decide)).1

end Cortx
